import Mathlib

/-!
Verification of the resume-builder generation pipeline.

The development shallowly embeds the pipeline code:
  * the LaTeX escaping function and the template renderer,
  * the pipeline stages threading an agent state,
  * the online compilation fallback chain and its retry wrapper.

Python strings are modelled as `String`/`List Char`; `str.replace` with a
single-character pattern is `replC`, with a general pattern `pyReplace`
(fuel-indexed so that it reduces in the kernel); substring tests (`in`) are
`hasSub`.  Python dictionaries produced by untyped upstream data are
modelled by the `PyVal` type (keys are modelled as strings, which is the
shape the extraction schema produces); dictionaries with a statically known
field set are modelled as structures with `Option` fields so that
`dict.get(k, default)` becomes `Option.getD`.  Fallible Python code
(KeyError, AttributeError, NameError) returns `Except String`.
-/

set_option maxRecDepth 8192

/-- Prefix test on character lists (same as the library one, restated here so
every string primitive used below is a local, kernel-reducible definition). -/
def prefOf : List Char → List Char → Bool
  | [], _ => true
  | _ :: _, [] => false
  | a :: as, b :: bs => a == b && prefOf as bs

/-- Python `pat in s` (substring containment) on character lists. -/
def hasSub (pat : List Char) : List Char → Bool
  | [] => pat.isEmpty
  | x :: xs => prefOf pat (x :: xs) || hasSub pat xs

/-- Python `s.replace(c, rep)` for a single-character pattern `c`:
replace every occurrence of `c` by `rep`, left to right. -/
def replC (c : Char) (rep : List Char) : List Char → List Char
  | [] => []
  | x :: xs => if x = c then rep ++ replC c rep xs else x :: replC c rep xs

/-- Python `s.replace(pat, rep)` for a general non-empty pattern:
leftmost non-overlapping replacement.  The first list argument is structural
fuel (callers pass the subject list itself; each step consumes at least one
subject character, so that is always enough). -/
def replGo (pat rep : List Char) : List Char → List Char → List Char
  | _, [] => []
  | [], l => l
  | _ :: fs, c :: cs =>
    if prefOf pat (c :: cs) && !pat.isEmpty then
      rep ++ replGo pat rep fs (List.drop (pat.length - 1) cs)
    else
      c :: replGo pat rep fs cs

/-- Python `s.replace(pat, rep)` on strings. -/
def pyReplace (s pat rep : String) : String :=
  ⟨replGo pat.data rep.data s.data s.data⟩

/-- Python `s[:n]` on strings. -/
def takeStr (n : Nat) (s : String) : String :=
  ⟨s.data.take n⟩

/-- Python `pat in s` on strings. -/
def containsS (s pat : String) : Bool :=
  hasSub pat.data s.data

/-- The ordered character-substitution table of `escape_latex`
(src/latex_handler.py lines 15-24): each pair is a single-character pattern
together with its replacement string. -/
def replacements : List (Char × String) :=
  [('\\', "\\textbackslash\x7b\x7d"),
   ('%', "\\%"),
   ('#', "\\#"),
   ('_', "\\_"),
   ('\x7b', "\\\x7b"),
   ('\x7d', "\\\x7d"),
   ('~', "\\textasciitilde\x7b\x7d"),
   ('^', "\\textasciicircum\x7b\x7d")]

/-- The `for old, new in replacements` loop of `escape_latex`
(src/latex_handler.py lines 26-27). -/
def escapeCore (t : String) : String :=
  replacements.foldl (fun acc pr => ⟨replC pr.1 pr.2.data acc.data⟩) t

/-- `escape_latex` (src/latex_handler.py lines 8-32): the guarded empty-input
case, the eight ordered substitutions, and the conditional ampersand rule
that is skipped when the transformed text already contains a
backslash-ampersand token. -/
def escape_latex (text : String) : String :=
  if text = "" then ""
  else
    let t := escapeCore text
    if containsS t "\\&" then t else ⟨replC '&' "\\&".data t.data⟩

/-!  Data model.

Entries of the per-section lists are Python dicts read with
`d.get(key, default)`; they are modelled as structures with `Option` fields
(`none` = key absent or value `None`), so `d.get(k, v)` is `field.getD v`.
-/

/-- A work-experience dict (keys company/role/duration/achievements). -/
structure ExpDict where
  company : Option String
  role : Option String
  duration : Option String
  achievements : Option (List String)

/-- An education dict (keys institution/degree/duration). -/
structure EduDict where
  institution : Option String
  degree : Option String
  duration : Option String

/-- A project dict (keys name/technologies/date/achievements). -/
structure ProjDict where
  name : Option String
  technologies : Option (List String)
  date : Option String
  achievements : Option (List String)

/-- A position-of-responsibility dict. -/
structure PorDict where
  organization : Option String
  role : Option String
  duration : Option String
  location : Option String
  description : Option String

/-- A certification dict. -/
structure CertDict where
  name : Option String
  issuer : Option String
  date : Option String

/-- `technical_skills`: a Python dict from category name to a list of skill
strings, in insertion order. -/
def TechSkills := List (String × List String)

/-- A dynamically shaped Python value, as can appear in the `coding_stats`
slot.  Dictionary keys are modelled as strings (the shape the extraction
schema produces: `CodingStats.platform : str`). -/
inductive PyVal where
  | pnone
  | pstr (s : String)
  | pnum (n : Int)
  | plist (items : List PyVal)
  | pdict (entries : List (String × PyVal))

/-- The dict produced by `ExtractedResumeInfo.model_dump()` as read back with
`extracted.get(...)` in `create_metadata` (src/main.py). -/
structure ExtractedInfo where
  name : Option String
  email : Option String
  phone : Option String
  github : Option String
  linkedin : Option String
  experiences : Option (List ExpDict)
  education : Option (List EduDict)
  projects : Option (List ProjDict)
  technical_skills : Option TechSkills
  soft_skills : Option (List String)
  positions_of_responsibility : Option (List PorDict)
  certifications : Option (List CertDict)
  coding_stats : Option PyVal

/-- `ResumeMetadata` (src/agentstate.py lines 6-36).  The list fields hold
dicts, exactly as in the Python model (`List[dict]`). -/
structure ResumeMetadata where
  name : String
  email : String
  phone : Option String
  github : Option String
  linkedin : Option String
  experiences : List ExpDict
  education : List EduDict
  projects : List ProjDict
  technical_skills : TechSkills
  soft_skills : List String
  positions_of_responsibility : List PorDict
  certifications : List CertDict
  coding_stats : Option (List (String × PyVal))

/-- `AgentState` (src/agentstate.py lines 39-47).  The `messages` channel is
`Annotated[list, operator.add]`, so a stage that returns
`"messages": [msg]` has the framework append `msg` to the accumulated list;
the stage embeddings below perform that append directly. -/
structure AgentState where
  resume_text : String
  job_description : String
  extracted_info : Option ExtractedInfo
  generated_projects : Option (List ProjDict)
  generated_skills : Option TechSkills
  resume_metadata : Option ResumeMetadata
  latex_code : Option String
  messages : List String

/-!  Schema-conforming reasoning-service responses (the validated Pydantic
objects), and their `model_dump()` images: every key present. -/

/-- A validated `Project` object (src/main.py lines 63-67). -/
structure FullProject where
  name : String
  technologies : List String
  date : String
  achievements : List String

/-- A validated `WorkExperience` object. -/
structure FullExp where
  company : String
  role : String
  duration : String
  achievements : List String

/-- A validated `Education` object. -/
structure FullEdu where
  institution : String
  degree : String
  duration : String

/-- A validated `PositionOfResponsibility` object. -/
structure FullPor where
  organization : String
  role : String
  duration : String
  location : Option String
  description : String

/-- A validated `Certification` object. -/
structure FullCert where
  name : String
  issuer : Option String
  date : Option String

/-- A validated `CodingStats` object. -/
structure FullCodingStats where
  platform : String
  description : String

/-- A validated `ExtractedResumeInfo` object (src/main.py lines 85-102). -/
structure FullExtracted where
  name : String
  email : String
  phone : Option String
  github : Option String
  linkedin : Option String
  experiences : List FullExp
  education : List FullEdu
  projects : List FullProject
  technical_skills : TechSkills
  soft_skills : List String
  positions_of_responsibility : List FullPor
  certifications : List FullCert
  coding_stats : Option (List FullCodingStats)

/-- `Project.model_dump()`: a dict with all four keys present. -/
def dumpProject (p : FullProject) : ProjDict :=
  ⟨some p.name, some p.technologies, some p.date, some p.achievements⟩

/-- `WorkExperience.model_dump()`. -/
def dumpExp (e : FullExp) : ExpDict :=
  ⟨some e.company, some e.role, some e.duration, some e.achievements⟩

/-- `Education.model_dump()`. -/
def dumpEdu (e : FullEdu) : EduDict :=
  ⟨some e.institution, some e.degree, some e.duration⟩

/-- `PositionOfResponsibility.model_dump()`. -/
def dumpPor (p : FullPor) : PorDict :=
  ⟨some p.organization, some p.role, some p.duration, p.location, some p.description⟩

/-- `Certification.model_dump()`. -/
def dumpCert (c : FullCert) : CertDict :=
  ⟨some c.name, c.issuer, c.date⟩

/-- The `coding_stats` slot of `ExtractedResumeInfo.model_dump()`:
`None` or a list of platform/description dicts. -/
def dumpCoding : Option (List FullCodingStats) → PyVal
  | none => .pnone
  | some l => .plist (l.map (fun c =>
      .pdict [("platform", .pstr c.platform), ("description", .pstr c.description)]))

/-- `ExtractedResumeInfo.model_dump()`: every key present. -/
def dumpExtracted (e : FullExtracted) : ExtractedInfo where
  name := some e.name
  email := some e.email
  phone := e.phone
  github := e.github
  linkedin := e.linkedin
  experiences := some (e.experiences.map dumpExp)
  education := some (e.education.map dumpEdu)
  projects := some (e.projects.map dumpProject)
  technical_skills := some e.technical_skills
  soft_skills := some e.soft_skills
  positions_of_responsibility := some (e.positions_of_responsibility.map dumpPor)
  certifications := some (e.certifications.map dumpCert)
  coding_stats := some (dumpCoding e.coding_stats)

/-!  Rendering stage: src/latex_handler.py. -/

/-- `get_latex_template` (src/latex_handler.py lines 137-264): the fixed
Overleaf-compatible template, verbatim (braces written as \x7b/\x7d). -/
def get_latex_template : String :=
  "%-------------------------\n% Resume in Latex\n%------------------------\n\n\\documentclass[letterpaper,11pt]\x7barticle\x7d\n\n\\usepackage\x7blatexsym\x7d\n\\usepackage[empty]\x7bfullpage\x7d\n\\usepackage\x7btitlesec\x7d\n\\usepackage\x7bmarvosym\x7d\n\\usepackage[usenames,dvipsnames]\x7bcolor\x7d\n\\usepackage\x7bverbatim\x7d\n\\usepackage\x7benumitem\x7d\n\\usepackage[hidelinks]\x7bhyperref\x7d\n\\usepackage\x7bfancyhdr\x7d\n\\usepackage[english]\x7bbabel\x7d\n\\usepackage\x7btabularx\x7d\n\\usepackage\x7bfontawesome5\x7d\n\\usepackage\x7bmulticol\x7d\n\\setlength\x7b\\multicolsep\x7d\x7b-3.0pt\x7d\n\\setlength\x7b\\columnsep\x7d\x7b-1pt\x7d\n\\input\x7bglyphtounicode\x7d\n\n\\pagestyle\x7bfancy\x7d\n\\fancyhf\x7b\x7d\n\\fancyfoot\x7b\x7d\n\\renewcommand\x7b\\headrulewidth\x7d\x7b0pt\x7d\n\\renewcommand\x7b\\footrulewidth\x7d\x7b0pt\x7d\n\n% Adjust margins\n\\addtolength\x7b\\oddsidemargin\x7d\x7b-0.6in\x7d\n\\addtolength\x7b\\evensidemargin\x7d\x7b-0.5in\x7d\n\\addtolength\x7b\\textwidth\x7d\x7b1.19in\x7d\n\\addtolength\x7b\\topmargin\x7d\x7b-.7in\x7d\n\\addtolength\x7b\\textheight\x7d\x7b1.4in\x7d\n\n\\urlstyle\x7bsame\x7d\n\n\\raggedbottom\n\\raggedright\n\\setlength\x7b\\tabcolsep\x7d\x7b0in\x7d\n\n% Sections formatting\n\\titleformat\x7b\\section\x7d\x7b\\vspace\x7b-4pt\x7d\\scshape\\raggedright\\large\\bfseries\x7d\x7b\x7d\x7b0em\x7d\x7b\x7d[\\color\x7bblack\x7d\\titlerule\\vspace\x7b-5pt\x7d]\n\n% Ensure that generate pdf is machine readable/ATS parsable\n\\pdfgentounicode=1\n\n%-------------------------\n% Custom commands\n\\newcommand\x7b\\resumeItem\x7d[1]\x7b\n  \\item\\small\x7b\n    \x7b#1 \\vspace\x7b-2pt\x7d\x7d\n  \x7d\n\x7d\n\n\\newcommand\x7b\\resumeSubheading\x7d[4]\x7b\n  \\vspace\x7b-2pt\x7d\\item\n    \\begin\x7btabular*\x7d\x7b1.0\\textwidth\x7d[t]\x7bl@\x7b\\extracolsep\x7b\\fill\x7d\x7dr\x7d\n      \\textbf\x7b#1\x7d & \\textbf\x7b\\small #2\x7d \\\\\n      \\textit\x7b\\small#3\x7d & \\textit\x7b\\small #4\x7d \\\\\n    \\end\x7btabular*\x7d\\vspace\x7b-7pt\x7d\n\x7d\n\n\\newcommand\x7b\\resumeProjectHeading\x7d[2]\x7b\n    \\item\n    \\begin\x7btabular*\x7d\x7b1.001\\textwidth\x7d\x7bl@\x7b\\extracolsep\x7b\\fill\x7d\x7dr\x7d\n      \\small#1 & \\textbf\x7b\\small #2\x7d\\\\\n    \\end\x7btabular*\x7d\\vspace\x7b-7pt\x7d\n\x7d\n\n\\newcommand\x7b\\resumeSubItem\x7d[1]\x7b\\resumeItem\x7b#1\x7d\\vspace\x7b-4pt\x7d\x7d\n\n\\renewcommand\\labelitemi\x7b$\\vcenter\x7b\\hbox\x7b\\tiny$\\bullet$\x7d\x7d$\x7d\n\\renewcommand\\labelitemii\x7b$\\vcenter\x7b\\hbox\x7b\\tiny$\\bullet$\x7d\x7d$\x7d\n\n\\newcommand\x7b\\resumeSubHeadingListStart\x7d\x7b\\begin\x7bitemize\x7d[leftmargin=0.0in, label=\x7b\x7d]\x7d\n\\newcommand\x7b\\resumeSubHeadingListEnd\x7d\x7b\\end\x7bitemize\x7d\x7d\n\\newcommand\x7b\\resumeItemListStart\x7d\x7b\\begin\x7bitemize\x7d\x7d\n\\newcommand\x7b\\resumeItemListEnd\x7d\x7b\\end\x7bitemize\x7d\\vspace\x7b-5pt\x7d\x7d\n\n%-------------------------------------------\n%%%%%%  RESUME STARTS HERE  %%%%%%%%%%%%%%%%%%%%%%%%%%%%\n\n\\begin\x7bdocument\x7d\n\n%----------HEADING----------\n\\begin\x7bcenter\x7d\n    \x7b\\Huge \\scshape \x7b\x7bNAME\x7d\x7d\x7d \\\\ \\vspace\x7b2pt\x7d\n    \\small \\raisebox\x7b-0.1\\height\x7d\\faPhone\\ \x7b\x7bPHONE\x7d\x7d ~ \\href\x7bmailto:\x7b\x7bEMAIL\x7d\x7d\x7d\x7b\\raisebox\x7b-0.2\\height\x7d\\faEnvelope\\ \x7b\x7bEMAIL\x7d\x7d\x7d ~ \n    \\href\x7bhttps://\x7b\x7bLINKEDIN\x7d\x7d\x7d\x7b\\raisebox\x7b-0.2\\height\x7d\\faLinkedin\\ LinkedIn\x7d\n\\end\x7bcenter\x7d\n\n%-----------EXPERIENCE-----------\n\\section\x7bExperience\x7d\n  \\resumeSubHeadingListStart\n\x7b\x7bEXPERIENCE\x7d\x7d  \\resumeSubHeadingListEnd\n\\vspace\x7b-16pt\x7d\n\n%-----------EDUCATION-----------\n\\section\x7bEducation\x7d\n  \\resumeSubHeadingListStart\n\x7b\x7bEDUCATION\x7d\x7d  \\resumeSubHeadingListEnd\n\n%-----------PROJECTS-----------\n\\section\x7bProjects\x7d\n    \\resumeSubHeadingListStart\n\x7b\x7bPROJECTS\x7d\x7d    \\resumeSubHeadingListEnd\n\\vspace\x7b-16pt\x7d\n\n%-----------TECHNICAL SKILLS-----------\n\\section\x7bTechnical Skills\x7d\n \\begin\x7bitemize\x7d[leftmargin=0.15in, label=\x7b\x7d]\n    \\item\x7b\n     \x7b\x7bTECHNICAL_SKILLS\x7d\x7d\n    \x7d\n \\end\x7bitemize\x7d\n \\vspace\x7b-16pt\x7d\n\n%-----------INVOLVEMENT---------------\n\\section\x7bPosition of Responsibility\x7d\n    \\resumeSubHeadingListStart\n\x7b\x7bPOSITIONS\x7d\x7d    \\resumeSubHeadingListEnd\n\n\\end\x7bdocument\x7d\n"

/-- The experience fragment accumulated for one dict
(src/latex_handler.py lines 52-61). -/
def expFragment (exp : ExpDict) : String :=
  "    \\resumeSubheading\x7b" ++ escape_latex (exp.company.getD "Company") ++
  "\x7d\x7b" ++ escape_latex (exp.duration.getD "Date") ++
  "\x7d\x7b" ++ escape_latex (exp.role.getD "Role") ++
  "\x7d\x7b\x7d\\resumeItemListStart\n" ++
  (exp.achievements.getD []).foldl
    (fun acc a => acc ++ "        \\resumeItem\x7b" ++ escape_latex a ++ "\x7d\n") "" ++
  "    \\resumeItemListEnd\n\n"

/-- `experience_latex` (src/latex_handler.py lines 49-63): loop over the
experiences if the list is truthy and non-empty, else the fixed placeholder
entry. -/
def experienceLatexOf (exps : List ExpDict) : String :=
  if exps.isEmpty then
    "    \\resumeSubheading\x7bAdd Your Experience Here\x7d\x7bJan 2024 - Present\x7d\x7bRole\x7d\x7b\x7d\\resumeItemListStart\n        \\resumeItem\x7bDescription of your work experience\x7d\n    \\resumeItemListEnd\n\n"
  else
    exps.foldl (fun acc e => acc ++ expFragment e) ""

/-- `education_latex` (src/latex_handler.py lines 68-77). -/
def educationLatexOf (edus : List EduDict) : String :=
  if edus.isEmpty then
    "    \\resumeSubheading\x7bYour University\x7d\x7b2020 - 2024\x7d\x7bYour Degree\x7d\x7b\x7d\\vspace\x7b-7pt\x7d\n"
  else
    edus.foldl (fun acc edu =>
      acc ++ "    \\resumeSubheading\x7b" ++ escape_latex (edu.institution.getD "Institution") ++
      "\x7d\x7b" ++ escape_latex (edu.duration.getD "Date") ++
      "\x7d\x7b" ++ escape_latex (edu.degree.getD "Degree") ++
      "\x7d\x7b\x7d\\vspace\x7b-7pt\x7d\n") ""

/-- The project fragment accumulated for one dict
(src/latex_handler.py lines 85-94). -/
def projFragment (proj : ProjDict) : String :=
  "    \\resumeProjectHeading\x7b\\textbf\x7b" ++ escape_latex (proj.name.getD "Project") ++
  "\x7d $|$ " ++
  String.intercalate ", " ((proj.technologies.getD []).map (fun t => escape_latex t)) ++
  "\x7d\x7b" ++ escape_latex (proj.date.getD "Date") ++
  "\x7d\\resumeItemListStart\n" ++
  (proj.achievements.getD []).foldl
    (fun acc a => acc ++ "      \\resumeItem\x7b" ++ escape_latex a ++ "\x7d\n") "" ++
  "    \\resumeItemListEnd\n"

/-- `projects_latex` (src/latex_handler.py lines 82-94): starts empty and is
only filled when the list is truthy and non-empty.  There is no placeholder
branch for this section. -/
def projectsLatexOf (projs : List ProjDict) : String :=
  if projs.isEmpty then ""
  else projs.foldl (fun acc p => acc ++ projFragment p) ""

/-- `technical_skills_latex` (src/latex_handler.py lines 99-108): one line
per category with a non-empty skill list, joined with the fixed separator;
a fixed default block when the dict is falsy. -/
def techSkillsLatexOf (ts : TechSkills) : String :=
  if List.isEmpty ts then
    "\\textbf\x7bLanguages\x7d: Python, Java, C++ \\\\\n     \\textbf\x7bTechnologies\x7d: React, Node.js, Docker"
  else
    String.intercalate " \\\\\n     "
      ((List.filter (fun pr => !pr.2.isEmpty) ts).map (fun pr =>
        "\\textbf\x7b" ++ escape_latex pr.1 ++ "\x7d: " ++
        String.intercalate ", " (pr.2.map (fun s2 => escape_latex s2))))

/-- `por_latex` (src/latex_handler.py lines 113-126). -/
def porLatexOf (pors : List PorDict) : String :=
  if pors.isEmpty then
    "        \\resumeSubheading\x7bOrganization Name\x7d\x7b2022 - 2024\x7d\x7bYour Role\x7d\x7b\x7d\\resumeItemListStart\n            \\resumeItem\x7bDescription of your responsibilities\x7d\n        \\resumeItemListEnd\n\n"
  else
    pors.foldl (fun acc por =>
      acc ++ "        \\resumeSubheading\x7b" ++ escape_latex (por.organization.getD "Organization") ++
      "\x7d\x7b" ++ escape_latex (por.duration.getD "Date") ++
      "\x7d\x7b" ++ escape_latex (por.role.getD "Role") ++
      "\x7d\x7b" ++ escape_latex (por.location.getD "") ++
      "\x7d\\resumeItemListStart\n            \\resumeItem\x7b" ++
      escape_latex (por.description.getD "") ++
      "\x7d\n        \\resumeItemListEnd\n\n") ""

/-- The body of `generate_latex` (src/latex_handler.py lines 35-128): the
template with each named placeholder substituted in the fixed source
order. -/
def genLatexCode (metadata : ResumeMetadata) : String :=
  let latex := get_latex_template
  let latex := pyReplace latex "\x7b\x7bNAME\x7d\x7d" (escape_latex metadata.name)
  let latex := pyReplace latex "\x7b\x7bEMAIL\x7d\x7d" (escape_latex metadata.email)
  let latex := pyReplace latex "\x7b\x7bPHONE\x7d\x7d" (escape_latex (metadata.phone.getD "+91 1234567890"))
  let latex := pyReplace latex "\x7b\x7bLINKEDIN\x7d\x7d" (escape_latex (metadata.linkedin.getD "linkedin.com/in/yourprofile"))
  let latex := pyReplace latex "\x7b\x7bEXPERIENCE\x7d\x7d" (experienceLatexOf metadata.experiences)
  let latex := pyReplace latex "\x7b\x7bEDUCATION\x7d\x7d" (educationLatexOf metadata.education)
  let latex := pyReplace latex "\x7b\x7bPROJECTS\x7d\x7d" (projectsLatexOf metadata.projects)
  let latex := pyReplace latex "\x7b\x7bTECHNICAL_SKILLS\x7d\x7d" (techSkillsLatexOf metadata.technical_skills)
  let latex := pyReplace latex "\x7b\x7bPOSITIONS\x7d\x7d" (porLatexOf metadata.positions_of_responsibility)
  latex

/-- The `generate_latex` stage (src/latex_handler.py lines 130-134): reads
`state["resume_metadata"]` (an `AttributeError` if it is still `None`),
stores the rendered code and reports a message. -/
def generate_latex (s : AgentState) : Except String AgentState :=
  match s.resume_metadata with
  | none => .error "AttributeError: NoneType has no attribute name"
  | some metadata =>
    .ok { s with
          latex_code := some (genLatexCode metadata),
          messages := s.messages ++ ["Generated LaTeX code"] }

/-!  Pipeline stages: src/main.py.

Each stage that calls the reasoning service is embedded as a function of the
input state and the validated, schema-conforming response object the call
returned (the `with_structured_output` contract); the stage body then
transforms that response exactly as the source does.
-/

/-- `extract_resume_info` (src/main.py lines 132-152): stores the dumped
extraction result and reports a message. -/
def extract_resume_info (s : AgentState) (extracted : FullExtracted) : AgentState :=
  { s with
    extracted_info := some (dumpExtracted extracted),
    messages := s.messages ++ ["Extracted information from resume"] }

/-- `generate_projects` (src/main.py lines 159-188): builds the experience
summary from `state["extracted_info"]` (an `AttributeError` if that is still
`None`), then stores the dumped response projects — however many the service
returned — and reports their count. -/
def generate_projects (s : AgentState) (result : List FullProject) :
    Except String AgentState :=
  match s.extracted_info with
  | none => .error "AttributeError: NoneType has no attribute get"
  | some _ =>
    .ok { s with
          generated_projects := some (result.map dumpProject),
          messages := s.messages ++
            ["Generated " ++ toString result.length ++ " relevant projects"] }

/-- `generate_skills` (src/main.py lines 195-215): stores the response skill
dict and reports a message. -/
def generate_skills (s : AgentState) (skills : TechSkills) : AgentState :=
  { s with
    generated_skills := some skills,
    messages := s.messages ++ ["Generated relevant technical skills"] }

/-- Python `item[k]` on a string-keyed dict: the value, or a `KeyError`. -/
def pyGetItem (entries : List (String × PyVal)) (k : String) : Except String PyVal :=
  match entries.find? (fun pr => pr.1 == k) with
  | some pr => .ok pr.2
  | none => .error ("KeyError: " ++ k)

/-- Python `d[k] = v` on a string-keyed dict: update in place, or append. -/
def assocSet (entries : List (String × PyVal)) (k : String) (v : PyVal) :
    List (String × PyVal) :=
  match entries with
  | [] => [(k, v)]
  | (k2, v2) :: rest =>
    if k2 = k then (k, v) :: rest else (k2, v2) :: assocSet rest k v

/-- The coding-stats normalization of `create_metadata`
(src/main.py lines 276-283): a list is collapsed with the comprehension
`\x7bitem["platform"]: item["description"] for item in raw if isinstance(item, dict)\x7d`
(a `KeyError` escapes if a dict item lacks either key), a dict passes
through, anything else becomes `None`. -/
def normalizeCoding (raw : Option PyVal) :
    Except String (Option (List (String × PyVal))) :=
  match raw with
  | some (.plist items) => do
    let entries ← items.foldlM (fun acc item =>
      match item with
      | PyVal.pdict e => do
        let k ← pyGetItem e "platform"
        let v ← pyGetItem e "description"
        match k with
        | .pstr ks => pure (assocSet acc ks v)
        | _ => Except.error "TypeError: non-string platform key (model: dict keys are strings)"
      | _ => pure acc) ([] : List (String × PyVal))
    pure (some entries)
  | some (.pdict d) => pure (some d)
  | _ => pure none

/-- Formatting of one experience dict in `create_metadata`
(src/main.py lines 228-236). -/
def fmtExp (exp : ExpDict) : ExpDict :=
  ⟨some (exp.company.getD ""), some (exp.role.getD ""),
   some (exp.duration.getD ""), some (exp.achievements.getD [])⟩

/-- Formatting of one position dict in `create_metadata`
(src/main.py lines 239-248). -/
def fmtPor (por : PorDict) : PorDict :=
  ⟨some (por.organization.getD ""), some (por.role.getD ""),
   some (por.duration.getD ""), some (por.location.getD ""),
   some (por.description.getD "")⟩

/-- Formatting of one certification dict in `create_metadata`
(src/main.py lines 251-258). -/
def fmtCert (cert : CertDict) : CertDict :=
  ⟨some (cert.name.getD ""), some (cert.issuer.getD ""), some (cert.date.getD "")⟩

/-- Formatting of one project dict in `create_metadata`
(src/main.py lines 266-274). -/
def formatProject (proj : ProjDict) : ProjDict :=
  ⟨some (proj.name.getD ""), some (proj.technologies.getD []),
   some (proj.date.getD ""), some (proj.achievements.getD [])⟩

/-- All four keys of a project dict carry values (the shape `model_dump`
always produces). -/
def ProjDict.filled (p : ProjDict) : Prop :=
  p.name.isSome = true ∧ p.technologies.isSome = true ∧
  p.date.isSome = true ∧ p.achievements.isSome = true

/-- The truthiness-guarded project source of `create_metadata`
(src/main.py lines 261-265): the generated projects when present and
non-empty, else the extracted ones. -/
def rawProjects (gen : Option (List ProjDict)) (ext : ExtractedInfo) : List ProjDict :=
  match gen with
  | some gp => if gp.isEmpty then ext.projects.getD [] else gp
  | none => ext.projects.getD []

/-- The truthiness-guarded skills source of `create_metadata`
(src/main.py line 294): `state.get("generated_skills") or extracted.get("technical_skills", ...)`. -/
def rawSkills (gen : Option TechSkills) (ext : ExtractedInfo) : TechSkills :=
  match gen with
  | some sk => if List.isEmpty sk then ext.technical_skills.getD [] else sk
  | none => ext.technical_skills.getD []

/-- The `ResumeMetadata(...)` constructed by `create_metadata`
(src/main.py lines 285-299), given the already-normalized coding stats. -/
def assembleMeta (s : AgentState) (extracted : ExtractedInfo)
    (coding_stats : Option (List (String × PyVal))) : ResumeMetadata where
  name := extracted.name.getD "John Doe"
  email := extracted.email.getD "john@example.com"
  phone := extracted.phone
  github := extracted.github
  linkedin := extracted.linkedin
  experiences := (extracted.experiences.getD []).map fmtExp
  education := extracted.education.getD []
  projects := (rawProjects s.generated_projects extracted).map formatProject
  technical_skills := rawSkills s.generated_skills extracted
  soft_skills := extracted.soft_skills.getD []
  positions_of_responsibility := (extracted.positions_of_responsibility.getD []).map fmtPor
  certifications := (extracted.certifications.getD []).map fmtCert
  coding_stats := coding_stats

/-- `create_metadata` (src/main.py lines 222-305): reads
`state["extracted_info"]` (an `AttributeError` if it is still `None`),
normalizes coding stats (propagating a possible `KeyError`), and stores the
assembled `ResumeMetadata` plus a message. -/
def create_metadata (s : AgentState) : Except String AgentState :=
  match s.extracted_info with
  | none => .error "AttributeError: NoneType has no attribute get"
  | some extracted =>
    match normalizeCoding extracted.coding_stats with
    | .error e => .error e
    | .ok coding_stats =>
      .ok { s with
            resume_metadata := some (assembleMeta s extracted coding_stats),
            messages := s.messages ++ ["Created resume metadata"] }

/-!  Online compilation fallback chain: src/online_compiler.py.

A backend attempt is the network outcome of one `requests` call: either a
response (status code, body bytes, body text) or a raised exception.  Both
service helpers catch all their exceptions internally, so they are total
functions from the outcome to the `(success, pdf_bytes, error)` triple.
-/

/-- The outcome of one HTTP request made by a backend. -/
inductive HttpOutcome where
  | resp (status : Nat) (content : List Nat) (text : String)
  | timeoutExn (msg : String)
  | requestExn (msg : String)
  | otherExn (msg : String)

/-- The PDF magic header bytes checked with `response.content[:4] == b..PDF`. -/
def pdfMagic : List Nat := [37, 80, 68, 70]

/-- `_compile_with_ytotech_json` (src/online_compiler.py lines 60-111). -/
def ytotechJson (r : HttpOutcome) : Bool × Option (List Nat) × String :=
  match r with
  | .resp status content text =>
    if status = 200 ∨ status = 201 then
      if content.take 4 = pdfMagic then (true, some content, "")
      else
        (false, none, "Got non-PDF response: " ++
          (if text ≠ "" then takeStr 200 text else "Invalid response format"))
    else
      (false, none, "HTTP " ++ toString status ++ ": " ++
        (if text ≠ "" then takeStr 300 text else "Unknown error"))
  | .timeoutExn _ => (false, none, "Request timeout (>45s)")
  | .requestExn m => (false, none, "Network error: " ++ takeStr 100 m)
  | .otherExn m => (false, none, "Error: " ++ takeStr 100 m)

/-- `_compile_with_ytotech_get` (src/online_compiler.py lines 114-148):
only a catch-all exception handler, and a shorter non-PDF message. -/
def ytotechGet (r : HttpOutcome) : Bool × Option (List Nat) × String :=
  match r with
  | .resp status content text =>
    if status = 200 ∨ status = 201 then
      if content.take 4 = pdfMagic then (true, some content, "")
      else (false, none, "Got non-PDF response")
    else
      (false, none, "HTTP " ++ toString status ++ ": " ++
        (if text ≠ "" then takeStr 200 text else "Unknown error"))
  | .timeoutExn m => (false, none, "Error: " ++ takeStr 100 m)
  | .requestExn m => (false, none, "Error: " ++ takeStr 100 m)
  | .otherExn m => (false, none, "Error: " ++ takeStr 100 m)

/-- `compile_latex_online` (src/online_compiler.py lines 20-57): try the two
services in their fixed priority order, return on the first success with an
empty error string, and otherwise combine both error messages, labelled by
service name and joined with the `"; "` delimiter. -/
def compile_latex_online (r1 r2 : HttpOutcome) : Bool × Option (List Nat) × String :=
  let t1 := ytotechJson r1
  if t1.1 then (true, t1.2.1, "")
  else
    let t2 := ytotechGet r2
    if t2.1 then (true, t2.2.1, "")
    else
      (false, none, "All compilation services failed: " ++
        ("YtoTech JSON POST: " ++ t1.2.2 ++ "; " ++ "YtoTech GET: " ++ t2.2.2))

/-!  Retry wrapper: src/online_compiler.py defines
`compile_latex_with_retry` twice, lines 151-178 and lines 181-208, with
identical bodies.  Each is embedded separately below.  The `chain` argument
gives the `(success, pdf_bytes, error)` outcome of the whole fallback chain
on each attempt.  With `max_retries = 0` the loop body never runs and the
final f-string reads the unbound local `error` — a `NameError`.
-/

/-- Loop of the first `compile_latex_with_retry` definition, recursing on the
number of remaining attempts and carrying the last `error` local (absent
before the first iteration). -/
def retryGoA (chain : Nat → Bool × Option (List Nat) × String) (max_retries : Nat) :
    Nat → Option String → Except String (Bool × Option (List Nat) × String)
  | 0, lastErr =>
    match lastErr with
    | some e => .ok (false, none,
        "Compilation failed after " ++ toString max_retries ++ " attempts: " ++ e)
    | none => .error "NameError: name error is not defined"
  | n + 1, _ =>
    let r := chain (max_retries - (n + 1))
    if r.1 then .ok (true, r.2.1, "")
    else retryGoA chain max_retries n (some r.2.2)

/-- The first `compile_latex_with_retry` definition
(src/online_compiler.py lines 151-178). -/
def compile_latex_with_retry_first (chain : Nat → Bool × Option (List Nat) × String)
    (max_retries : Nat) : Except String (Bool × Option (List Nat) × String) :=
  retryGoA chain max_retries max_retries none

/-- Loop of the second `compile_latex_with_retry` definition. -/
def retryGoB (chain : Nat → Bool × Option (List Nat) × String) (max_retries : Nat) :
    Nat → Option String → Except String (Bool × Option (List Nat) × String)
  | 0, lastErr =>
    match lastErr with
    | some e => .ok (false, none,
        "Compilation failed after " ++ toString max_retries ++ " attempts: " ++ e)
    | none => .error "NameError: name error is not defined"
  | n + 1, _ =>
    let r := chain (max_retries - (n + 1))
    if r.1 then .ok (true, r.2.1, "")
    else retryGoB chain max_retries n (some r.2.2)

/-- The second `compile_latex_with_retry` definition
(src/online_compiler.py lines 181-208), the one that shadows the first when
the module is loaded. -/
def compile_latex_with_retry_second (chain : Nat → Bool × Option (List Nat) × String)
    (max_retries : Nat) : Except String (Bool × Option (List Nat) × String) :=
  retryGoB chain max_retries max_retries none

/-!  Concrete fixtures used to instantiate the theorems below. -/

/-- An assembled record whose four repeating sections are all empty. -/
def emptyMeta : ResumeMetadata where
  name := "John Doe"
  email := "john@example.com"
  phone := none
  github := none
  linkedin := none
  experiences := []
  education := []
  projects := []
  technical_skills := []
  soft_skills := []
  positions_of_responsibility := []
  certifications := []
  coding_stats := none

/-- A small schema-conforming extraction response. -/
def ext0 : FullExtracted where
  name := "Alice"
  email := "alice@example.com"
  phone := some "123"
  github := none
  linkedin := some "linkedin.com/in/alice"
  experiences := [⟨"ACME", "Dev", "2020", ["shipped it"]⟩]
  education := [⟨"MIT", "BSc", "2019"⟩]
  projects := [⟨"P0", ["t0"], "Jan", ["a0", "b0"]⟩]
  technical_skills := [("Languages", ["Python"])]
  soft_skills := ["teamwork"]
  positions_of_responsibility := []
  certifications := []
  coding_stats := some [⟨"LeetCode", "500 problems"⟩]

/-- A fresh per-request state (src/main.py lines 359-368). -/
def s0 : AgentState where
  resume_text := "resume text"
  job_description := "job description"
  extracted_info := none
  generated_projects := none
  generated_skills := none
  resume_metadata := none
  latex_code := none
  messages := []

/-- The state after the extraction stage on the fixture response. -/
def s1 : AgentState := extract_resume_info s0 ext0

/-- A schema-conforming generated project. -/
def pGen : FullProject := ⟨"GenP", ["a"], "Feb", ["m1", "m2"]⟩

/-- A schema-conforming response with a single project, five technologies
and no achievement bullets. -/
def pOff : FullProject := ⟨"Solo", ["t1", "t2", "t3", "t4", "t5"], "Mar", []⟩

/-- The state `s1` with one generated project. -/
def sGen : AgentState := { s1 with generated_projects := some [dumpProject pGen] }

/-- The result state of `create_metadata` on `sGen`. -/
def sGenOut : AgentState := (create_metadata sGen).toOption.getD sGen

/-- The result state of `create_metadata` on `s1` (no generated projects). -/
def s1Out : AgentState := (create_metadata s1).toOption.getD s1

/-- The result state of `generate_projects` on `s1` with response `[pGen]`. -/
def s1Proj : AgentState := (generate_projects s1 [pGen]).toOption.getD s1

/-- The result state of `generate_latex` on `sGenOut`. -/
def sGenLatex : AgentState := (generate_latex sGenOut).toOption.getD sGenOut

/-- The extraction dict of `ext0` with coding stats replaced by a list shape
containing a dict that lacks the `platform` key. -/
def extBadCoding : ExtractedInfo :=
  { dumpExtracted ext0 with coding_stats := some (.plist [.pdict []]) }

/-- The state `s1` with the malformed coding stats of `extBadCoding`. -/
def sBadCoding : AgentState :=
  { s1 with extracted_info := some extBadCoding }

/-!  Invariant for the ampersand rule of `escape_latex`: after the eight
substitutions every backslash in the text is immediately followed by one of
the characters `t % # _ \x7b \x7d`, so the two-character token checked by
the conditional ampersand rule can never occur and the rule always fires. -/

/-- Every backslash in the list is immediately followed by a character from
`S` (a trailing backslash counts as a violation). -/
def follows (S : List Char) : List Char → Bool
  | [] => true
  | [x] => x != '\\'
  | x :: y :: rest => (x != '\\' || S.contains y) && follows S (y :: rest)

/-- The list does not end with a backslash. -/
def lastNotSlash : List Char → Bool
  | [] => true
  | [x] => x != '\\'
  | _ :: y :: rest => lastNotSlash (y :: rest)

/-- The characters that can follow a backslash after the eight
substitutions of `escape_latex` have run. -/
def ampSafeSet : List Char := ['t', '%', '#', '_', '\x7b', '\x7d']

/-!  Theorems. -/

/-- Helper: a string whose data is non-empty stays non-empty under append. -/
theorem append_ne_empty_left (a b : String) (h : a.data ≠ []) : a ++ b ≠ "" := by
  cases a with | mk d1 =>
  cases b with | mk d2 =>
  intro hc
  have hdata : d1 ++ d2 = [] := congrArg String.data hc
  cases d1 with
  | nil => exact h rfl
  | cons x xs => simp at hdata

/-- Helper: the two retry loops are the same function. -/
theorem retryGo_eq (chain : Nat → Bool × Option (List Nat) × String)
    (mr : Nat) : ∀ n lastErr, retryGoA chain mr n lastErr = retryGoB chain mr n lastErr := by
  intro n
  induction n with
  | zero => intro lastErr; cases lastErr <;> rfl
  | succ k ih =>
    intro lastErr
    simp only [retryGoA, retryGoB]
    split
    · rfl
    · exact ih _

/-- Claim C9: the two source definitions of the retry-with-backoff helper
`compile_latex_with_retry` are behaviorally identical — for every retry
count and every sequence of fallback-chain outcomes they produce the same
result, so keeping only one copy changes no behavior. -/
theorem compile_latex_with_retry_defs_equal
    (chain : Nat → Bool × Option (List Nat) × String) (max_retries : Nat) :
    compile_latex_with_retry_first chain max_retries =
      compile_latex_with_retry_second chain max_retries :=
  retryGo_eq chain max_retries max_retries none

/-- Helper: the JSON backend either fails or succeeds with some bytes and an
empty error. -/
theorem ytotechJson_shape (r : HttpOutcome) :
    (ytotechJson r).1 = false ∨ ∃ c, ytotechJson r = (true, some c, "") := by
  cases r with
  | resp status content text =>
    simp only [ytotechJson]
    split
    · split
      · exact Or.inr ⟨content, rfl⟩
      · exact Or.inl rfl
    · exact Or.inl rfl
  | timeoutExn m => exact Or.inl rfl
  | requestExn m => exact Or.inl rfl
  | otherExn m => exact Or.inl rfl

/-- Helper: the GET backend either fails or succeeds with some bytes and an
empty error. -/
theorem ytotechGet_shape (r : HttpOutcome) :
    (ytotechGet r).1 = false ∨ ∃ c, ytotechGet r = (true, some c, "") := by
  cases r with
  | resp status content text =>
    simp only [ytotechGet]
    split
    · split
      · exact Or.inr ⟨content, rfl⟩
      · exact Or.inl rfl
    · exact Or.inl rfl
  | timeoutExn m => exact Or.inl rfl
  | requestExn m => exact Or.inl rfl
  | otherExn m => exact Or.inl rfl

/-- Claim C10: the fallback-chain result triple is internally consistent —
on success the error string is empty and the bytes are present; on failure
the bytes are `None` and the error string is non-empty. -/
theorem compile_latex_online_triple_consistent (r1 r2 : HttpOutcome) :
    ((compile_latex_online r1 r2).1 = true →
      (compile_latex_online r1 r2).2.2 = "" ∧
      (compile_latex_online r1 r2).2.1.isSome = true) ∧
    ((compile_latex_online r1 r2).1 = false →
      (compile_latex_online r1 r2).2.1 = none ∧
      (compile_latex_online r1 r2).2.2 ≠ "") := by
  rcases ytotechJson_shape r1 with h1 | ⟨c1, h1⟩
  · rcases ytotechGet_shape r2 with h2 | ⟨c2, h2⟩
    · have hres : compile_latex_online r1 r2 = (false, none,
          "All compilation services failed: " ++
            ("YtoTech JSON POST: " ++ (ytotechJson r1).2.2 ++ "; " ++
              "YtoTech GET: " ++ (ytotechGet r2).2.2)) := by
        simp [compile_latex_online, h1, h2]
      rw [hres]
      constructor
      · intro h; cases h
      · intro _
        exact ⟨rfl, append_ne_empty_left _ _ (by decide)⟩
    · have hres : compile_latex_online r1 r2 = (true, some c2, "") := by
        simp [compile_latex_online, h1, h2]
      rw [hres]
      exact ⟨fun _ => ⟨rfl, rfl⟩, by intro h; cases h⟩
  · have hres : compile_latex_online r1 r2 = (true, some c1, "") := by
      simp [compile_latex_online, h1]
    rw [hres]
    exact ⟨fun _ => ⟨rfl, rfl⟩, by intro h; cases h⟩

/-- Witness for C10: both implications applied at concrete backend
outcomes. -/
theorem compile_latex_online_triple_consistent_witness :
    ((compile_latex_online (.resp 200 [37, 80, 68, 70] "") (.resp 404 [] "")).2.2 = "" ∧
      (compile_latex_online (.resp 200 [37, 80, 68, 70] "") (.resp 404 [] "")).2.1.isSome = true) ∧
    ((compile_latex_online (.resp 500 [] "x") (.resp 500 [] "y")).2.1 = none ∧
      (compile_latex_online (.resp 500 [] "x") (.resp 500 [] "y")).2.2 ≠ "") :=
  ⟨(compile_latex_online_triple_consistent (.resp 200 [37, 80, 68, 70] "") (.resp 404 [] "")).1 rfl,
   (compile_latex_online_triple_consistent (.resp 500 [] "x") (.resp 500 [] "y")).2 rfl⟩

/-- Claim C3 (counterexample): the first backend fails with HTTP 500 and the
second backend returns a 2xx response (202) whose body begins with the PDF
magic header, yet the overall result is failure — the code only accepts
status 200 or 201, so the claim as stated (any 2xx response succeeds) is
false. -/
theorem compile_latex_online_rejects_202 :
    (200 ≤ 202 ∧ 202 < 300) ∧
    List.take 4 [37, 80, 68, 70] = pdfMagic ∧
    compile_latex_online (.resp 500 [] "boom") (.resp 202 [37, 80, 68, 70] "") =
      (false, none,
        "All compilation services failed: YtoTech JSON POST: HTTP 500: boom; YtoTech GET: HTTP 202: Unknown error") :=
  ⟨by decide, rfl, rfl⟩

/-- Claim C3 (amended): the fallback chain tries its backends in a fixed
priority order and stops at the first success — if the first backend fails
and the second returns a response with status 200 or 201 whose body begins
with the PDF magic header, the overall result is success carrying the second
backend bytes and an empty error string; if both backends fail, the result
is failure whose error string concatenates both labelled error messages with
the `"; "` delimiter. -/
theorem compile_latex_online_fallback_chain :
    (∀ r1 st c tx, (ytotechJson r1).1 = false → (st = 200 ∨ st = 201) →
      List.take 4 c = pdfMagic →
      compile_latex_online r1 (.resp st c tx) = (true, some c, "")) ∧
    (∀ r1 r2, (ytotechJson r1).1 = false → (ytotechGet r2).1 = false →
      compile_latex_online r1 r2 = (false, none,
        "All compilation services failed: " ++
          ("YtoTech JSON POST: " ++ (ytotechJson r1).2.2 ++ "; " ++
            "YtoTech GET: " ++ (ytotechGet r2).2.2))) := by
  constructor
  · intro r1 st c tx h1 hst hc
    have h2 : ytotechGet (.resp st c tx) = (true, some c, "") := by
      simp [ytotechGet, hst, hc]
    simp [compile_latex_online, h1, h2]
  · intro r1 r2 h1 h2
    simp [compile_latex_online, h1, h2]

/-- Witness for C3: both parts of the amended claim at concrete backend
outcomes. -/
theorem compile_latex_online_fallback_chain_witness :
    compile_latex_online (.resp 500 [] "a") (.resp 201 [37, 80, 68, 70, 9] "") =
      (true, some [37, 80, 68, 70, 9], "") ∧
    compile_latex_online (.timeoutExn "t") (.resp 404 [] "nf") =
      (false, none,
        "All compilation services failed: " ++
          ("YtoTech JSON POST: " ++ (ytotechJson (.timeoutExn "t")).2.2 ++ "; " ++
            "YtoTech GET: " ++ (ytotechGet (.resp 404 [] "nf")).2.2)) :=
  ⟨compile_latex_online_fallback_chain.1 (.resp 500 [] "a") 201 [37, 80, 68, 70, 9] ""
      rfl (Or.inr rfl) rfl,
   compile_latex_online_fallback_chain.2 (.timeoutExn "t") (.resp 404 [] "nf") rfl rfl⟩

/-- Claim C7 (counterexample): a schema-conforming reasoning-service
response with a single project (five technologies, no achievements) passes
through the projects generation stage unchanged — the stage stores one
entry, not three, so the stated count and length caps are not enforced. -/
theorem generate_projects_count_not_enforced :
    pOff.technologies.length = 5 ∧ pOff.achievements.length = 0 ∧
    (generate_projects s1 [pOff]).map
      (fun s2 => (s2.generated_projects.getD []).length) = .ok 1 ∧
    ¬ (generate_projects s1 [pOff]).map
      (fun s2 => (s2.generated_projects.getD []).length) = .ok 3 := by
  refine ⟨rfl, rfl, rfl, ?_⟩
  intro h
  have h1 : (Except.ok 1 : Except String Nat) = .ok 3 := h
  cases h1

/-- Claim C7 (amended): the projects generation stage is a pass-through —
for every schema-conforming response it stores exactly the dumped response
list (whatever its length and whatever the per-entry list lengths are) and
reports its count; the exactly-3 / at-most-3 / 2-to-3 caps live only in the
prompt and field descriptions and are not enforced by the stage. -/
theorem generate_projects_pass_through (s : AgentState) (e : ExtractedInfo)
    (res : List FullProject) (h : s.extracted_info = some e) :
    generate_projects s res = .ok { s with
      generated_projects := some (res.map dumpProject),
      messages := s.messages ++
        ["Generated " ++ toString res.length ++ " relevant projects"] } := by
  simp [generate_projects, h]

/-- Witness for C7: the pass-through equation at the fixture state and a
concrete two-project response. -/
theorem generate_projects_pass_through_witness :
    generate_projects s1 [pGen, pOff] = .ok { s1 with
      generated_projects := some ([pGen, pOff].map dumpProject),
      messages := s1.messages ++
        ["Generated " ++ toString ([pGen, pOff].length) ++ " relevant projects"] } :=
  generate_projects_pass_through s1 (dumpExtracted ext0) [pGen, pOff] rfl

/-- Claim C8: every pipeline stage is additive on the shared state — each
stage agrees with its input state on every field other than its own output
field and the appended message, so previously computed fields are never
overwritten or cleared. -/
theorem pipeline_stages_additive :
    (∀ s ext,
      (extract_resume_info s ext).resume_text = s.resume_text ∧
      (extract_resume_info s ext).job_description = s.job_description ∧
      (extract_resume_info s ext).generated_projects = s.generated_projects ∧
      (extract_resume_info s ext).generated_skills = s.generated_skills ∧
      (extract_resume_info s ext).resume_metadata = s.resume_metadata ∧
      (extract_resume_info s ext).latex_code = s.latex_code ∧
      (extract_resume_info s ext).messages =
        s.messages ++ ["Extracted information from resume"]) ∧
    (∀ s res s2, generate_projects s res = .ok s2 →
      s2.resume_text = s.resume_text ∧
      s2.job_description = s.job_description ∧
      s2.extracted_info = s.extracted_info ∧
      s2.generated_skills = s.generated_skills ∧
      s2.resume_metadata = s.resume_metadata ∧
      s2.latex_code = s.latex_code ∧
      s2.messages = s.messages ++
        ["Generated " ++ toString res.length ++ " relevant projects"]) ∧
    (∀ s sk,
      (generate_skills s sk).resume_text = s.resume_text ∧
      (generate_skills s sk).job_description = s.job_description ∧
      (generate_skills s sk).extracted_info = s.extracted_info ∧
      (generate_skills s sk).generated_projects = s.generated_projects ∧
      (generate_skills s sk).resume_metadata = s.resume_metadata ∧
      (generate_skills s sk).latex_code = s.latex_code ∧
      (generate_skills s sk).messages =
        s.messages ++ ["Generated relevant technical skills"]) ∧
    (∀ s s2, create_metadata s = .ok s2 →
      s2.resume_text = s.resume_text ∧
      s2.job_description = s.job_description ∧
      s2.extracted_info = s.extracted_info ∧
      s2.generated_projects = s.generated_projects ∧
      s2.generated_skills = s.generated_skills ∧
      s2.latex_code = s.latex_code ∧
      s2.messages = s.messages ++ ["Created resume metadata"]) ∧
    (∀ s s2, generate_latex s = .ok s2 →
      s2.resume_text = s.resume_text ∧
      s2.job_description = s.job_description ∧
      s2.extracted_info = s.extracted_info ∧
      s2.generated_projects = s.generated_projects ∧
      s2.generated_skills = s.generated_skills ∧
      s2.resume_metadata = s.resume_metadata ∧
      s2.messages = s.messages ++ ["Generated LaTeX code"]) := by
  refine ⟨?_, ?_, ?_, ?_, ?_⟩
  · intro s ext
    exact ⟨rfl, rfl, rfl, rfl, rfl, rfl, rfl⟩
  · intro s res s2 h
    unfold generate_projects at h
    split at h
    · cases h
    · cases Except.ok.inj h
      exact ⟨rfl, rfl, rfl, rfl, rfl, rfl, rfl⟩
  · intro s sk
    exact ⟨rfl, rfl, rfl, rfl, rfl, rfl, rfl⟩
  · intro s s2 h
    unfold create_metadata at h
    split at h
    · cases h
    · split at h
      · cases h
      · cases Except.ok.inj h
        exact ⟨rfl, rfl, rfl, rfl, rfl, rfl, rfl⟩
  · intro s s2 h
    unfold generate_latex at h
    split at h
    · cases h
    · cases Except.ok.inj h
      exact ⟨rfl, rfl, rfl, rfl, rfl, rfl, rfl⟩

/-- Witness for C8: the three fallible stage frame conditions applied at the
fixture states, each hypothesis discharged by computation. -/
theorem pipeline_stages_additive_witness :
    (s1Proj.resume_metadata = s1.resume_metadata ∧ s1Proj.latex_code = s1.latex_code) ∧
    (sGenOut.latex_code = sGen.latex_code ∧ sGenOut.generated_projects = sGen.generated_projects) ∧
    (sGenLatex.resume_metadata = sGenOut.resume_metadata ∧
      sGenLatex.extracted_info = sGenOut.extracted_info) := by
  have h2 := pipeline_stages_additive.2.1 s1 [pGen] s1Proj rfl
  have h4 := pipeline_stages_additive.2.2.2.1 sGen sGenOut rfl
  have h5 := pipeline_stages_additive.2.2.2.2 sGenOut sGenLatex rfl
  exact ⟨⟨h2.2.2.2.2.1, h2.2.2.2.2.2.1⟩, ⟨h4.2.2.2.2.2.1, h4.2.2.2.1⟩,
    ⟨h5.2.2.2.2.2.1, h5.2.2.1⟩⟩

/-- Helper: formatting is the identity on a project dict with all four keys
present. -/
theorem formatProject_filled (p : ProjDict) (h : p.filled) : formatProject p = p := by
  obtain ⟨h1, h2, h3, h4⟩ := h
  cases p with
  | mk n t d a =>
    cases n with
    | none => simp at h1
    | some nv =>
      cases t with
      | none => simp at h2
      | some tv =>
        cases d with
        | none => simp at h3
        | some dv =>
          cases a with
          | none => simp at h4
          | some av => rfl

/-- Helper: formatting maps a list of fully keyed project dicts to itself. -/
theorem map_formatProject_self (l : List ProjDict) (h : ∀ p ∈ l, p.filled) :
    l.map formatProject = l := by
  induction l with
  | nil => rfl
  | cons p ps ih =>
    have hp : formatProject p = p := formatProject_filled p (h p (by simp))
    have hps : ps.map formatProject = ps := ih (fun q hq => h q (by simp [hq]))
    simp [hp, hps]

/-- Helper: a successful `create_metadata` run is the assembled state for
some successfully normalized coding stats. -/
theorem create_metadata_ok_elim (s : AgentState) (ext : ExtractedInfo)
    (s2 : AgentState) (hext : s.extracted_info = some ext)
    (hok : create_metadata s = .ok s2) :
    ∃ cs, normalizeCoding ext.coding_stats = .ok cs ∧
      s2 = { s with
              resume_metadata := some (assembleMeta s ext cs),
              messages := s.messages ++ ["Created resume metadata"] } := by
  simp only [create_metadata, hext] at hok
  rcases hn : normalizeCoding ext.coding_stats with e | cs
  · simp only [hn] at hok
    cases hok
  · simp only [hn] at hok
    refine ⟨cs, rfl, ?_⟩
    simp only [hext]
    exact (Except.ok.inj hok).symm

/-- Claim C4: assembly-stage project precedence — a truthy (non-empty)
generated-projects list fully replaces the extracted projects (the assembled
projects are exactly the formatted generated list, which is the list itself
whenever its dicts carry all four keys, as every stage-produced dict does);
an absent or empty generated-projects list falls back to the extracted
projects.  -/
theorem create_metadata_projects_precedence :
    (∀ s ext gp s2, s.extracted_info = some ext →
      s.generated_projects = some gp → gp ≠ [] →
      create_metadata s = .ok s2 →
      ∃ m, s2.resume_metadata = some m ∧
        m.projects = gp.map formatProject ∧
        ((∀ p ∈ gp, p.filled) → m.projects = gp)) ∧
    (∀ s ext s2, s.extracted_info = some ext →
      (s.generated_projects = none ∨ s.generated_projects = some []) →
      create_metadata s = .ok s2 →
      ∃ m, s2.resume_metadata = some m ∧
        m.projects = (ext.projects.getD []).map formatProject ∧
        ((∀ p ∈ ext.projects.getD [], p.filled) →
          m.projects = ext.projects.getD [])) ∧
    (∀ s res s2, generate_projects s res = .ok s2 →
      ∃ l, s2.generated_projects = some l ∧ ∀ p ∈ l, p.filled) := by
  refine ⟨?_, ?_, ?_⟩
  · intro s ext gp s2 hext hgp hne hok
    obtain ⟨cs, hcs, rfl⟩ := create_metadata_ok_elim s ext s2 hext hok
    have hemp : gp.isEmpty = false := by
      cases gp with
      | nil => exact absurd rfl hne
      | cons q qs => rfl
    have hraw : rawProjects s.generated_projects ext = gp := by
      simp [rawProjects, hgp, hemp]
    refine ⟨assembleMeta s ext cs, rfl, ?_, ?_⟩
    · simp [assembleMeta, hraw]
    · intro hfill
      simp [assembleMeta, hraw, map_formatProject_self gp hfill]
  · intro s ext s2 hext hgp hok
    obtain ⟨cs, hcs, rfl⟩ := create_metadata_ok_elim s ext s2 hext hok
    have hraw : rawProjects s.generated_projects ext = ext.projects.getD [] := by
      rcases hgp with h | h <;> simp [rawProjects, h]
    refine ⟨assembleMeta s ext cs, rfl, ?_, ?_⟩
    · simp [assembleMeta, hraw]
    · intro hfill
      simp [assembleMeta, hraw, map_formatProject_self (ext.projects.getD []) hfill]
  · intro s res s2 hok
    unfold generate_projects at hok
    split at hok
    · cases hok
    · cases Except.ok.inj hok
      refine ⟨res.map dumpProject, rfl, ?_⟩
      intro p hp
      obtain ⟨q, hq, rfl⟩ := List.mem_map.mp hp
      exact ⟨rfl, rfl, rfl, rfl⟩

/-- Witness for C4: all three parts at the fixture states — generated
projects present (`sGen`), generated projects absent (`s1`), and the
generation stage output itself. -/
theorem create_metadata_projects_precedence_witness :
    (∃ m, sGenOut.resume_metadata = some m ∧
      m.projects = [dumpProject pGen].map formatProject ∧
      ((∀ p ∈ [dumpProject pGen], p.filled) → m.projects = [dumpProject pGen])) ∧
    (∃ m, s1Out.resume_metadata = some m ∧
      m.projects = ((dumpExtracted ext0).projects.getD []).map formatProject ∧
      ((∀ p ∈ (dumpExtracted ext0).projects.getD [], p.filled) →
        m.projects = (dumpExtracted ext0).projects.getD [])) ∧
    (∃ l, s1Proj.generated_projects = some l ∧ ∀ p ∈ l, p.filled) :=
  ⟨create_metadata_projects_precedence.1 sGen (dumpExtracted ext0) [dumpProject pGen]
      sGenOut rfl rfl (by simp) rfl,
   create_metadata_projects_precedence.2.1 s1 (dumpExtracted ext0) s1Out rfl
      (Or.inl rfl) rfl,
   create_metadata_projects_precedence.2.2 s1 [pGen] s1Proj rfl⟩

/-- Claim C5 (counterexample): a coding-stats value of the shape
`[\x7b\x7d]` — a list containing a dict that lacks the platform key — makes
the assembly stage fail with a `KeyError`, so it is false that every
unrecognized shape normalizes to absent with no shape causing the stage to
fail. -/
theorem create_metadata_coding_stats_keyerror :
    extBadCoding.coding_stats = some (.plist [.pdict []]) ∧
    create_metadata sBadCoding = .error "KeyError: platform" :=
  ⟨rfl, rfl⟩

/-- Claim C5 (amended): coding-stats normalization in the assembly stage —
a list of platform/description records collapses to the single mapping
shape, a mapping passes through unchanged, and a non-list non-dict value
normalizes to absent; however a list containing a record without the
platform (or description) key raises a `KeyError` and the stage fails, so
not every shape is failure-free. -/
theorem create_metadata_coding_stats_normalization :
    (∀ s ext s2, s.extracted_info = some ext →
      ext.coding_stats = some (.plist [.pdict
        [("platform", .pstr "LeetCode"), ("description", .pstr "500 problems")]]) →
      create_metadata s = .ok s2 →
      ∃ m, s2.resume_metadata = some m ∧
        m.coding_stats = some [("LeetCode", .pstr "500 problems")]) ∧
    (∀ d, normalizeCoding (some (.pdict d)) = .ok (some d)) ∧
    (normalizeCoding none = .ok none) ∧
    (normalizeCoding (some .pnone) = .ok none) ∧
    (∀ sv, normalizeCoding (some (.pstr sv)) = .ok none) ∧
    (∀ n, normalizeCoding (some (.pnum n)) = .ok none) ∧
    (∀ s ext, s.extracted_info = some ext →
      ext.coding_stats = some (.plist [.pdict []]) →
      create_metadata s = .error "KeyError: platform") := by
  refine ⟨?_, fun d => rfl, rfl, rfl, fun sv => rfl, fun n => rfl, ?_⟩
  · intro s ext s2 hext hcode hok
    obtain ⟨cs, hcs, rfl⟩ := create_metadata_ok_elim s ext s2 hext hok
    rw [hcode] at hcs
    have hcsv : cs = some [("LeetCode", .pstr "500 problems")] :=
      (Except.ok.inj hcs).symm
    exact ⟨assembleMeta s ext cs, rfl, by simp [assembleMeta, hcsv]⟩
  · intro s ext hext hcode
    have hn : normalizeCoding (some (PyVal.plist [PyVal.pdict []])) =
        .error "KeyError: platform" := rfl
    simp [create_metadata, hext, hcode, hn]

/-- Witness for C5: the list-of-records normalization at the fixture state
`s1` and the `KeyError` case at the malformed fixture state. -/
theorem create_metadata_coding_stats_normalization_witness :
    (∃ m, s1Out.resume_metadata = some m ∧
      m.coding_stats = some [("LeetCode", .pstr "500 problems")]) ∧
    create_metadata sBadCoding = .error "KeyError: platform" :=
  ⟨create_metadata_coding_stats_normalization.1 s1 (dumpExtracted ext0) s1Out
      rfl rfl rfl,
   create_metadata_coding_stats_normalization.2.2.2.2.2.2 sBadCoding extBadCoding
      rfl rfl⟩

/-- Claim C2 (counterexample): on the all-empty-sections record the
rendered document carries no placeholder fragment for the projects
section — the projects fragment is the empty string and the document
contains the Projects section as an empty block (list-start immediately
followed by list-end), contradicting the claim that all four sections get a
placeholder rather than an empty block. -/
theorem generate_latex_empty_projects_block :
    projectsLatexOf emptyMeta.projects = "" ∧
    containsS (genLatexCode emptyMeta)
      "\\section\x7bProjects\x7d\n    \\resumeSubHeadingListStart\n    \\resumeSubHeadingListEnd" = true :=
  ⟨rfl, by decide⟩

/-- Claim C2 (amended): for a record whose experiences, education, projects
and positions lists are all empty, the rendering stage substitutes the fixed
human-readable placeholder fragments for the experience, education and
positions sections (and the rendered document contains them), but the
projects section gets the empty string — an empty block, with no placeholder
defined in the code. -/
theorem generate_latex_empty_sections (m : ResumeMetadata)
    (h1 : m.experiences = []) (h2 : m.education = [])
    (h3 : m.projects = []) (h4 : m.positions_of_responsibility = []) :
    experienceLatexOf m.experiences =
      "    \\resumeSubheading\x7bAdd Your Experience Here\x7d\x7bJan 2024 - Present\x7d\x7bRole\x7d\x7b\x7d\\resumeItemListStart\n        \\resumeItem\x7bDescription of your work experience\x7d\n    \\resumeItemListEnd\n\n" ∧
    educationLatexOf m.education =
      "    \\resumeSubheading\x7bYour University\x7d\x7b2020 - 2024\x7d\x7bYour Degree\x7d\x7b\x7d\\vspace\x7b-7pt\x7d\n" ∧
    porLatexOf m.positions_of_responsibility =
      "        \\resumeSubheading\x7bOrganization Name\x7d\x7b2022 - 2024\x7d\x7bYour Role\x7d\x7b\x7d\\resumeItemListStart\n            \\resumeItem\x7bDescription of your responsibilities\x7d\n        \\resumeItemListEnd\n\n" ∧
    projectsLatexOf m.projects = "" ∧
    containsS (genLatexCode emptyMeta) "Add Your Experience Here" = true ∧
    containsS (genLatexCode emptyMeta) "Your University" = true ∧
    containsS (genLatexCode emptyMeta) "Organization Name" = true := by
  rw [h1, h2, h3, h4]
  exact ⟨rfl, rfl, rfl, rfl, by decide, by decide, by decide⟩

/-- Witness for C2: the amended claim applied at the all-empty fixture
record. -/
theorem generate_latex_empty_sections_witness :
    experienceLatexOf emptyMeta.experiences =
      "    \\resumeSubheading\x7bAdd Your Experience Here\x7d\x7bJan 2024 - Present\x7d\x7bRole\x7d\x7b\x7d\\resumeItemListStart\n        \\resumeItem\x7bDescription of your work experience\x7d\n    \\resumeItemListEnd\n\n" ∧
    educationLatexOf emptyMeta.education =
      "    \\resumeSubheading\x7bYour University\x7d\x7b2020 - 2024\x7d\x7bYour Degree\x7d\x7b\x7d\\vspace\x7b-7pt\x7d\n" ∧
    porLatexOf emptyMeta.positions_of_responsibility =
      "        \\resumeSubheading\x7bOrganization Name\x7d\x7b2022 - 2024\x7d\x7bYour Role\x7d\x7b\x7d\\resumeItemListStart\n            \\resumeItem\x7bDescription of your responsibilities\x7d\n        \\resumeItemListEnd\n\n" ∧
    projectsLatexOf emptyMeta.projects = "" ∧
    containsS (genLatexCode emptyMeta) "Add Your Experience Here" = true ∧
    containsS (genLatexCode emptyMeta) "Your University" = true ∧
    containsS (genLatexCode emptyMeta) "Organization Name" = true :=
  generate_latex_empty_sections emptyMeta rfl rfl rfl rfl

/-- Claim C1 (counterexample): for the input consisting of a single
backslash, the literal-backslash token substituted by the first rule does
not survive the later brace rules — its braces are rewritten into escaped
braces, so the output no longer contains the token. -/
theorem escape_latex_backslash_token_rewritten :
    escape_latex "\\" = "\\textbackslash\\\x7b\\\x7d" ∧
    containsS (escape_latex "\\") "\\textbackslash\x7b\x7d" = false :=
  ⟨rfl, by decide⟩

/-- Claim C1 (amended): the escaping rules run in the fixed source order
with the backslash rule first, so backslashes introduced by later
replacement tokens are never themselves re-escaped; however the brace
characters inside the literal-backslash token (substituted before the brace
rules run) are rewritten by the later brace rules, so an input backslash
becomes the doubly rewritten token rather than surviving intact. -/
theorem escape_latex_substitution_order :
    escape_latex "%" = "\\%" ∧
    escape_latex "#" = "\\#" ∧
    escape_latex "_" = "\\_" ∧
    escape_latex "\x7b" = "\\\x7b" ∧
    escape_latex "\x7d" = "\\\x7d" ∧
    escape_latex "~" = "\\textasciitilde\x7b\x7d" ∧
    escape_latex "^" = "\\textasciicircum\x7b\x7d" ∧
    escape_latex "&" = "\\&" ∧
    escape_latex "\\" = "\\textbackslash\\\x7b\\\x7d" ∧
    escape_latex "100% \\ done" = "100\\% \\textbackslash\\\x7b\\\x7d done" :=
  ⟨rfl, rfl, rfl, rfl, rfl, rfl, rfl, rfl, rfl, rfl⟩

theorem follows_cons_of_ne (S : List Char) (x : Char) (m : List Char)
    (hx : (x != '\\') = true) (hm : follows S m = true) :
    follows S (x :: m) = true := by
  cases m with
  | nil => simpa [follows] using hx
  | cons y ys => simp [follows, hx, hm]

theorem follows_tail (S : List Char) (x : Char) (xs : List Char)
    (h : follows S (x :: xs) = true) : follows S xs = true := by
  cases xs with
  | nil => rfl
  | cons y ys =>
    simp only [follows, Bool.and_eq_true] at h
    exact h.2

theorem follows_slash (S : List Char) (xs : List Char)
    (h : follows S ('\\' :: xs) = true) :
    ∃ y ys, xs = y :: ys ∧ S.contains y = true := by
  cases xs with
  | nil => simp [follows] at h
  | cons y ys =>
    refine ⟨y, ys, rfl, ?_⟩
    simp only [follows, Bool.and_eq_true, Bool.or_eq_true] at h
    rcases h.1 with h1 | h1
    · simp at h1
    · exact h1

theorem follows_append (S : List Char) (a b : List Char)
    (ha : follows S a = true) (hb : follows S b = true)
    (hl : lastNotSlash a = true) : follows S (a ++ b) = true := by
  induction a with
  | nil => simpa using hb
  | cons x xs ih =>
    cases xs with
    | nil =>
      exact follows_cons_of_ne S x b (by simpa [follows] using ha) hb
    | cons y ys =>
      have ha2 : follows S (y :: ys) = true := follows_tail S x (y :: ys) ha
      have hl2 : lastNotSlash (y :: ys) = true := hl
      have hrec : follows S ((y :: ys) ++ b) = true := ih ha2 hl2
      simp only [follows, Bool.and_eq_true] at ha
      simp only [List.cons_append] at hrec ⊢
      simp only [follows, Bool.and_eq_true]
      exact ⟨ha.1, hrec⟩

theorem follows_replC (S S2 : List Char) (c : Char) (rep : List Char)
    (hc : c ≠ '\\') (hcS : S.contains c = false)
    (hsub : ∀ z, S.contains z = true → S2.contains z = true)
    (hrepF : follows S2 rep = true) (hrepL : lastNotSlash rep = true) :
    ∀ l, follows S l = true → follows S2 (replC c rep l) = true := by
  intro l
  induction l with
  | nil => intro _; rfl
  | cons x xs ih =>
    intro h
    have hxs : follows S xs = true := follows_tail S x xs h
    by_cases hxc : x = c
    · subst hxc
      simp only [replC, if_pos rfl]
      exact follows_append S2 rep _ hrepF (ih hxs) hrepL
    · by_cases hxb : x = '\\'
      · subst hxb
        obtain ⟨y, ys, rfl, hyS⟩ := follows_slash S xs h
        have hyc : ¬ (y = c) := by
          intro he; subst he; rw [hcS] at hyS; cases hyS
        have hrec := ih hxs
        have hstep : replC c rep (y :: ys) = y :: replC c rep ys := by
          simp [replC, if_neg hyc]
        rw [hstep] at hrec
        have hstep0 : replC c rep ('\\' :: y :: ys) = '\\' :: y :: replC c rep ys := by
          simp [replC, hxc, hyc]
        rw [hstep0]
        simp only [follows, Bool.and_eq_true, Bool.or_eq_true]
        constructor
        · exact Or.inr (hsub y hyS)
        · exact hrec
      · simp only [replC, if_neg hxc]
        exact follows_cons_of_ne S2 x _ (by simp [hxb]) (ih hxs)

theorem follows_replC_slash (S2 : List Char) (rep : List Char)
    (hrepF : follows S2 rep = true) (hrepL : lastNotSlash rep = true) :
    ∀ l, follows S2 (replC '\\' rep l) = true := by
  intro l
  induction l with
  | nil => rfl
  | cons x xs ih =>
    by_cases hxb : x = '\\'
    · subst hxb
      simp only [replC, if_pos rfl]
      exact follows_append S2 rep _ hrepF ih hrepL
    · simp only [replC, if_neg hxb]
      exact follows_cons_of_ne S2 x _ (by simp [hxb]) ih

theorem hasSub_amp_of_follows (S : List Char) (hS : S.contains '&' = false) :
    ∀ l, follows S l = true → hasSub ['\\', '&'] l = false := by
  intro l
  induction l with
  | nil => intro _; rfl
  | cons x xs ih =>
    intro h
    have hxs := follows_tail S x xs h
    by_cases hxb : x = '\\'
    · subst hxb
      obtain ⟨y, ys, rfl, hyS⟩ := follows_slash S xs h
      have hyne : ¬ (y = '&') := by
        intro he; subst he; rw [hS] at hyS; cases hyS
      have hy : ('&' == y) = false := by
        simp only [beq_eq_false_iff_ne]
        exact fun he => hyne he.symm
      have h1 : prefOf ['\\', '&'] ('\\' :: y :: ys) = false := by
        simp only [prefOf, hy]
        simp
      have h2 := ih hxs
      calc hasSub ['\\', '&'] ('\\' :: y :: ys)
          = (prefOf ['\\', '&'] ('\\' :: y :: ys) || hasSub ['\\', '&'] (y :: ys)) := rfl
        _ = false := by rw [h1, h2]; rfl
    · have hx1 : ('\\' == x) = false := by
        simp only [beq_eq_false_iff_ne]
        exact fun he => hxb he.symm
      have h1 : prefOf ['\\', '&'] (x :: xs) = false := by
        simp only [prefOf, hx1]
        simp
      have h2 := ih hxs
      calc hasSub ['\\', '&'] (x :: xs)
          = (prefOf ['\\', '&'] (x :: xs) || hasSub ['\\', '&'] xs) := rfl
        _ = false := by rw [h1, h2]; rfl

theorem follows_escapeCore (t : String) :
    follows ampSafeSet (escapeCore t).data = true := by
  show follows ampSafeSet
    (replC '^' "\\textasciicircum\x7b\x7d".data
      (replC '~' "\\textasciitilde\x7b\x7d".data
        (replC '\x7d' "\\\x7d".data
          (replC '\x7b' "\\\x7b".data
            (replC '_' "\\_".data
              (replC '#' "\\#".data
                (replC '%' "\\%".data
                  (replC '\\' "\\textbackslash\x7b\x7d".data t.data)))))))) = true
  have h1 : follows ['t']
      (replC '\\' "\\textbackslash\x7b\x7d".data t.data) = true :=
    follows_replC_slash ['t'] _ (by decide) (by decide) t.data
  have h2 : follows ['t', '%']
      (replC '%' "\\%".data
        (replC '\\' "\\textbackslash\x7b\x7d".data t.data)) = true :=
    follows_replC ['t'] ['t', '%'] '%' "\\%".data (by decide) (by decide)
      (fun z hz => by simp at hz ⊢; tauto) (by decide) (by decide) _ h1
  have h3 : follows ['t', '%', '#']
      (replC '#' "\\#".data
        (replC '%' "\\%".data
          (replC '\\' "\\textbackslash\x7b\x7d".data t.data))) = true :=
    follows_replC ['t', '%'] ['t', '%', '#'] '#' "\\#".data (by decide) (by decide)
      (fun z hz => by simp at hz ⊢; tauto) (by decide) (by decide) _ h2
  have h4 : follows ['t', '%', '#', '_']
      (replC '_' "\\_".data
        (replC '#' "\\#".data
          (replC '%' "\\%".data
            (replC '\\' "\\textbackslash\x7b\x7d".data t.data)))) = true :=
    follows_replC ['t', '%', '#'] ['t', '%', '#', '_'] '_' "\\_".data
      (by decide) (by decide)
      (fun z hz => by simp at hz ⊢; tauto) (by decide) (by decide) _ h3
  have h5 : follows ['t', '%', '#', '_', '\x7b']
      (replC '\x7b' "\\\x7b".data
        (replC '_' "\\_".data
          (replC '#' "\\#".data
            (replC '%' "\\%".data
              (replC '\\' "\\textbackslash\x7b\x7d".data t.data))))) = true :=
    follows_replC ['t', '%', '#', '_'] ['t', '%', '#', '_', '\x7b'] '\x7b'
      "\\\x7b".data (by decide) (by decide)
      (fun z hz => by simp at hz ⊢; tauto) (by decide) (by decide) _ h4
  have h6 : follows ampSafeSet
      (replC '\x7d' "\\\x7d".data
        (replC '\x7b' "\\\x7b".data
          (replC '_' "\\_".data
            (replC '#' "\\#".data
              (replC '%' "\\%".data
                (replC '\\' "\\textbackslash\x7b\x7d".data t.data)))))) = true :=
    follows_replC ['t', '%', '#', '_', '\x7b'] ampSafeSet '\x7d'
      "\\\x7d".data (by decide) (by decide)
      (fun z hz => by simp [ampSafeSet] at hz ⊢; tauto) (by decide) (by decide) _ h5
  have h7 : follows ampSafeSet
      (replC '~' "\\textasciitilde\x7b\x7d".data
        (replC '\x7d' "\\\x7d".data
          (replC '\x7b' "\\\x7b".data
            (replC '_' "\\_".data
              (replC '#' "\\#".data
                (replC '%' "\\%".data
                  (replC '\\' "\\textbackslash\x7b\x7d".data t.data))))))) = true :=
    follows_replC ampSafeSet ampSafeSet '~' "\\textasciitilde\x7b\x7d".data
      (by decide) (by decide) (fun z hz => hz) (by decide) (by decide) _ h6
  exact follows_replC ampSafeSet ampSafeSet '^' "\\textasciicircum\x7b\x7d".data
      (by decide) (by decide) (fun z hz => hz) (by decide) (by decide) _ h7

/-- Claim C6 (amended): the ampersand-rule skip condition is evaluated on
the already-transformed text, in which the first rule has rewritten every
input backslash; after the eight substitutions every backslash is followed
by one of `t % # _ \x7b \x7d`, so the pre-escaped ampersand token can never
survive to the check — the condition never fires and the ampersand
replacement is always applied, also to input that already contained the
token. -/
theorem escape_latex_amp_rule_never_skipped (text : String) :
    escape_latex text =
      (if text = "" then "" else ⟨replC '&' "\\&".data (escapeCore text).data⟩) := by
  unfold escape_latex
  split
  · rfl
  · have hcond : containsS (escapeCore text) "\\&" = false :=
      hasSub_amp_of_follows ampSafeSet (by decide) (escapeCore text).data
        (follows_escapeCore text)
    simp [hcond]

/-- Claim C6 (counterexample): the input consisting of the pre-escaped
ampersand token (a backslash immediately followed by an ampersand) does not
keep its ampersand as-is — the backslash rule rewrites the backslash first,
the skip condition then fails to fire, and the ampersand is escaped. -/
theorem escape_latex_preescaped_amp_still_escaped :
    containsS "\\&" "\\&" = true ∧
    escape_latex "\\&" = "\\textbackslash\\\x7b\\\x7d\\&" ∧
    escape_latex "\\&" ≠ "\\textbackslash\\\x7b\\\x7d&" :=
  ⟨rfl, rfl, by decide⟩

/-- Witness for C6: the always-applied ampersand rule at a concrete input. -/
theorem escape_latex_amp_rule_never_skipped_witness :
    escape_latex "a&" =
      (if ("a&" : String) = "" then ""
       else ⟨replC '&' "\\&".data (escapeCore "a&").data⟩) :=
  escape_latex_amp_rule_never_skipped "a&"

/-- Witness for C9: the two retry definitions agree at a concrete outcome
sequence and retry count. -/
theorem compile_latex_with_retry_defs_equal_witness :
    compile_latex_with_retry_first (fun _ => (false, none, "down")) 2 =
      compile_latex_with_retry_second (fun _ => (false, none, "down")) 2 :=
  compile_latex_with_retry_defs_equal (fun _ => (false, none, "down")) 2
